import Mathlib

/-!
Shallow embedding of the `sm::gfx` GPU abstraction layer (gfx.cpp /
gfx_p.hpp / gfx.hpp / gfx_render_graph.cpp), together with theorems that
settle the specification claims about the command-list recording state
machine, the barrier tables, the descriptor-set-layout cache, the render
graph, queue-family selection, handle allocation and handle lookup.

Conventions of the embedding:
* `unordered_map` fields become association lists (`List (Nat × _)`) or key
  lists; `contains`/`at` become `lookup`; a call of `.at` on an absent key
  (which throws `std::out_of_range` in C++) and a dereference of a null
  pointer are both modelled by an `Option` result of `none`.
* the process-wide error callback `s_errorCallback` is modelled by an
  `errors : List ErrMsg` trace carried in the state; each `ErrMsg`
  constructor stands for one distinct C++ message string.
* the recorded Vulkan command stream of a `vk::CommandBuffer` is modelled
  as a `List Cmd`; `vk::UniqueCommandBuffer::reset()` clears it.
* `float` viewport parameters are modelled by `Int` (the only arithmetic
  the source performs on them is `y + height` and `-height`).
-/

namespace SmGfx

/-- TextureState from gfx.hpp (latest revision): the caller-declared logical
state of a texture. -/
inductive TextureState where
  | eUndefined
  | eUploadDst
  | eShaderRead
  | eRenderTarget
  | ePresent
deriving DecidableEq, Repr

/-- The vk::ImageLayout values that occur in the static barrier tables. -/
inductive ImageLayout where
  | eUndefined
  | eShaderReadOnlyOptimal
  | eAttachmentOptimal
  | ePresentSrcKHR
deriving DecidableEq, Repr

/-- The vk::PipelineStageFlagBits2 values that occur in the static barrier
tables. -/
inductive PipelineStage2 where
  | eTopOfPipe
  | eFragmentShader
  | eColorAttachmentOutput
  | eBottomOfPipe
deriving DecidableEq, Repr

/-- The vk::AccessFlagBits2 values that occur in the static barrier tables. -/
inductive AccessFlags2 where
  | eNone
  | eShaderRead
  | eColorAttachmentWrite
deriving DecidableEq, Repr

/-- Static table `s_textureStateImageLayoutMap` of gfx.cpp. The map literal
has entries for eUndefined, eShaderRead, eRenderTarget and ePresent only;
any other key is absent (`unordered_map::contains` is false, `at` throws). -/
def s_textureStateImageLayoutMap : TextureState → Option ImageLayout
  | .eUndefined => some .eUndefined
  | .eShaderRead => some .eShaderReadOnlyOptimal
  | .eRenderTarget => some .eAttachmentOptimal
  | .ePresent => some .ePresentSrcKHR
  | .eUploadDst => none

/-- Static table `s_barrierTextureStatePipelineStageMaskMap` of gfx.cpp. -/
def s_barrierTextureStatePipelineStageMaskMap : TextureState → Option PipelineStage2
  | .eUndefined => some .eTopOfPipe
  | .eShaderRead => some .eFragmentShader
  | .eRenderTarget => some .eColorAttachmentOutput
  | .ePresent => some .eBottomOfPipe
  | .eUploadDst => none

/-- Static table `s_barrierTextureStateAccessMaskMap` of gfx.cpp. -/
def s_barrierTextureStateAccessMaskMap : TextureState → Option AccessFlags2
  | .eUndefined => some .eNone
  | .eShaderRead => some .eShaderRead
  | .eRenderTarget => some .eColorAttachmentWrite
  | .ePresent => some .eNone
  | .eUploadDst => none

/-- One distinct constructor per `s_errorCallback` message string used by the
modelled operations. -/
inductive ErrMsg where
  | alreadyBegunRecording
  | endWithoutBegin
  | nullPipelineBind
  | noPipelineForDescriptorSet
  | invalidFenceHandleDevice
deriving DecidableEq, Repr

/-- PipelineType from gfx_p.hpp. -/
inductive PipelineType where
  | eCompute
  | eGraphics
deriving DecidableEq, Repr

/-- vk::PipelineBindPoint as derived from a pipeline's type. -/
inductive BindPoint where
  | eCompute
  | eGraphics
deriving DecidableEq, Repr

/-- A `Pipeline` object as seen by `CommandList`: its tag plus the identities
of its vk pipeline and vk pipeline layout (the two getters the command list
uses). -/
structure Pipeline where
  ptype : PipelineType
  vkPipeline : Nat
  vkLayout : Nat
deriving DecidableEq, Repr

/-- The bind point computed by the `pipeline->get_type() == eCompute ? ... `
conditionals in gfx.cpp. -/
def Pipeline.bindPoint (p : Pipeline) : BindPoint :=
  match p.ptype with
  | .eCompute => .eCompute
  | .eGraphics => .eGraphics

/-- vk::IndexType. -/
inductive IndexType where
  | eUint16
  | eUint32
deriving DecidableEq, Repr

/-- The vk::ImageMemoryBarrier2 built by `CommandList::transition_texture`. -/
structure Barrier where
  image : Nat
  oldLayout : ImageLayout
  newLayout : ImageLayout
  srcStageMask : PipelineStage2
  dstStageMask : PipelineStage2
  srcAccessMask : AccessFlags2
  dstAccessMask : AccessFlags2
deriving DecidableEq, Repr

/-- One Vulkan command recorded into the command buffer. Each constructor
corresponds to one `m_commandBuffer->...` call in gfx.cpp. -/
inductive Cmd where
  | beginRendering (colorViews : List Nat) (hasDepth : Bool)
  | endRendering
  | setViewport (x y width height minDepth maxDepth : Int)
  | setScissor (x y : Int) (width height : Nat)
  | bindPipeline (bp : BindPoint) (vkPipeline : Nat)
  | bindDescriptorSets (bp : BindPoint) (vkLayout : Nat) (firstSet : Nat) (sets : List Nat)
  | pushConstants (vkLayout : Nat) (stages : Nat) (offset size : Nat)
  | dispatchCmd (x y z : Nat)
  | bindIndexBuffer (buffer : Nat) (ty : IndexType)
  | bindVertexBuffers (firstBinding : Nat) (buffer : Nat)
  | draw (vertexCount instanceCount firstVertex firstInstance : Nat)
  | drawIndexed (indexCount instanceCount firstIndex : Nat) (vertexOffset : Int) (firstInstance : Nat)
  | pipelineBarrier2 (b : Barrier)
deriving DecidableEq, Repr

/-- The `CommandList` class state: the recording flag, the bound-pipeline
reference, the recorded commands of its `vk::CommandBuffer` and the trace of
error-callback invocations. -/
structure CommandList where
  hasBegun : Bool
  boundPipeline : Option Pipeline
  buf : List Cmd
  errors : List ErrMsg
deriving DecidableEq, Repr

namespace CommandList

/-- `CommandList::reset()`: resets the command buffer (clearing its recorded
commands), clears `m_hasBegun` and the bound-pipeline reference. -/
def reset (s : CommandList) : CommandList :=
  { s with buf := [], hasBegun := false, boundPipeline := none }

/-- `CommandList::begin()`: errors if already begun, otherwise begins the
command buffer and sets `m_hasBegun`. -/
def begin (s : CommandList) : CommandList :=
  if s.hasBegun then
    { s with errors := s.errors ++ [.alreadyBegunRecording] }
  else
    { s with hasBegun := true }

/-- `CommandList::end()`: errors if not begun, otherwise ends the command
buffer. Note the source does not clear `m_hasBegun` here. -/
def end' (s : CommandList) : CommandList :=
  if !s.hasBegun then
    { s with errors := s.errors ++ [.endWithoutBegin] }
  else
    s

/-- `CommandList::begin_render_pass` (gfx.cpp): no-op unless begun, else
records a `beginRendering` with the attachment views. -/
def begin_render_pass (s : CommandList) (colorViews : List Nat) (hasDepth : Bool) : CommandList :=
  if !s.hasBegun then s
  else { s with buf := s.buf ++ [.beginRendering colorViews hasDepth] }

/-- `CommandList::end_render_pass`. -/
def end_render_pass (s : CommandList) : CommandList :=
  if !s.hasBegun then s
  else { s with buf := s.buf ++ [.endRendering] }

/-- `CommandList::set_viewport`: records the y-flipped viewport
`{ x, y + height, width, -height, minDepth, maxDepth }`. -/
def set_viewport (s : CommandList) (x y width height minDepth maxDepth : Int) : CommandList :=
  if !s.hasBegun then s
  else { s with buf := s.buf ++ [.setViewport x (y + height) width (-height) minDepth maxDepth] }

/-- `CommandList::set_scissor`. -/
def set_scissor (s : CommandList) (x y : Int) (width height : Nat) : CommandList :=
  if !s.hasBegun then s
  else { s with buf := s.buf ++ [.setScissor x y width height] }

/-- `CommandList::bind_pipeline`: errors on a null pipeline; otherwise binds
the pipeline and stores the bound-pipeline reference. Note the source has no
`m_hasBegun` guard in this member. -/
def bind_pipeline (s : CommandList) (pipeline : Option Pipeline) : CommandList :=
  match pipeline with
  | none => { s with errors := s.errors ++ [.nullPipelineBind] }
  | some p =>
      { s with
        buf := s.buf ++ [.bindPipeline p.bindPoint p.vkPipeline],
        boundPipeline := some p }

/-- `CommandList::bind_descriptor_set`: no-op unless begun; errors (no-op)
when no pipeline is bound; otherwise records the descriptor-set bind using
the bound pipeline's bind point and layout. -/
def bind_descriptor_set (s : CommandList) (descriptorSet : Nat) : CommandList :=
  if !s.hasBegun then s
  else
    match s.boundPipeline with
    | none => { s with errors := s.errors ++ [.noPipelineForDescriptorSet] }
    | some p =>
        { s with buf := s.buf ++ [.bindDescriptorSets p.bindPoint p.vkLayout 0 [descriptorSet]] }

/-- `CommandList::set_constants`: no-op unless begun; otherwise reads
`m_boundPipeline->get_pipeline_layout()` WITHOUT a null check, so with no
bound pipeline it dereferences a null pointer — modelled as `none`. -/
def set_constants (s : CommandList) (stages offset size : Nat) : Option CommandList :=
  if !s.hasBegun then some s
  else
    match s.boundPipeline with
    | none => none
    | some p => some { s with buf := s.buf ++ [.pushConstants p.vkLayout stages offset size] }

/-- `CommandList::dispatch`. -/
def dispatch (s : CommandList) (x y z : Nat) : CommandList :=
  if !s.hasBegun then s
  else { s with buf := s.buf ++ [.dispatchCmd x y z] }

/-- `CommandList::bind_index_buffer`. -/
def bind_index_buffer (s : CommandList) (buffer : Nat) (ty : IndexType) : CommandList :=
  if !s.hasBegun then s
  else { s with buf := s.buf ++ [.bindIndexBuffer buffer ty] }

/-- `CommandList::bind_vertex_buffer`: records a bind at first binding 0. -/
def bind_vertex_buffer (s : CommandList) (buffer : Nat) : CommandList :=
  if !s.hasBegun then s
  else { s with buf := s.buf ++ [.bindVertexBuffers 0 buffer] }

/-- `CommandList::draw`. -/
def draw (s : CommandList) (vertexCount instanceCount firstVertex firstInstance : Nat) : CommandList :=
  if !s.hasBegun then s
  else { s with buf := s.buf ++ [.draw vertexCount instanceCount firstVertex firstInstance] }

/-- `CommandList::draw_indexed`. -/
def draw_indexed (s : CommandList) (indexCount instanceCount firstIndex : Nat)
    (vertexOffset : Int) (firstInstance : Nat) : CommandList :=
  if !s.hasBegun then s
  else { s with buf := s.buf ++ [.drawIndexed indexCount instanceCount firstIndex vertexOffset firstInstance] }

/-- `CommandList::transition_texture`: no-op unless begun; looks up the
(layout, stage, access) triples for the old and new states in the three
static tables and records a single barrier from the old triple to the new
triple. An absent table entry (the GFX_ASSERT plus `unordered_map::at`,
which throws) is modelled by `none`. -/
def transition_texture (s : CommandList) (image : Nat)
    (oldState newState : TextureState) : Option CommandList :=
  if !s.hasBegun then some s
  else
    match s_textureStateImageLayoutMap oldState, s_textureStateImageLayoutMap newState,
      s_barrierTextureStatePipelineStageMaskMap oldState,
      s_barrierTextureStatePipelineStageMaskMap newState,
      s_barrierTextureStateAccessMaskMap oldState, s_barrierTextureStateAccessMaskMap newState with
    | some srcLayout, some dstLayout, some srcStage, some dstStage, some srcAccess, some dstAccess =>
        some { s with
          buf := s.buf ++ [.pipelineBarrier2
            { image := image,
              oldLayout := srcLayout, newLayout := dstLayout,
              srcStageMask := srcStage, dstStageMask := dstStage,
              srcAccessMask := srcAccess, dstAccessMask := dstAccess }] }
    | _, _, _, _, _, _ => none

end CommandList

/-! ## Descriptor-set-layout cache (gfx.hpp std::hash specialisation and
`Device::create_or_get_descriptor_set_layout`) -/

/-- DescriptorType from gfx.hpp (latest revision). -/
inductive DescriptorType where
  | eStorageBuffer
  | eUniformBuffer
  | eTexture
deriving DecidableEq, Repr

/-- Numeric value of the enum, as fed to `std::hash`. -/
def DescriptorType.toNat : DescriptorType → Nat
  | .eStorageBuffer => 0
  | .eUniformBuffer => 1
  | .eTexture => 2

/-- DescriptorBindingInfo from gfx.hpp: (type, count, shader-stage mask). -/
structure DescriptorBindingInfo where
  type : DescriptorType
  count : Nat
  shaderStages : Nat
deriving DecidableEq, Repr

/-- DescriptorSetInfo from gfx.hpp: an ordered binding list. -/
structure DescriptorSetInfo where
  bindings : List DescriptorBindingInfo
deriving DecidableEq, Repr

/-- `sm::hash_combine` from gfx.hpp:
`seed ^= hash(v) + 0x9e3779b9 + (seed << 6) + (seed >> 2)` in `size_t`
(64-bit) arithmetic; `std::hash` on an integer is the identity. -/
def hash_combine (seed v : Nat) : Nat :=
  (seed ^^^ ((v + 0x9e3779b9 + seed * 64 + seed / 4) % 2 ^ 64)) % 2 ^ 64

/-- `std::hash<sm::gfx::DescriptorSetInfo>::operator()` from gfx.hpp: combines
the binding-list size and, for each binding, its type and count. The
`shaderStages` member is never combined. -/
def hashDescriptorSetInfo (info : DescriptorSetInfo) : Nat :=
  info.bindings.foldl
    (fun seed b => hash_combine (hash_combine seed b.type.toNat) b.count)
    (hash_combine 0 info.bindings.length)

/-- The `m_descriptorSetLayoutMap` cache of `Device` (hash → layout) together
with a fresh-layout counter standing for `createDescriptorSetLayoutUnique`:
distinct calls create distinct layout objects. -/
structure LayoutCache where
  map : List (Nat × Nat)
  nextLayoutId : Nat
deriving DecidableEq, Repr

/-- An empty cache on a freshly constructed device. -/
def LayoutCache.empty : LayoutCache :=
  { map := [], nextLayoutId := 0 }

/-- `Device::create_or_get_descriptor_set_layout`: hashes the info; on a
cache miss creates a fresh layout and inserts it at that hash; returns the
layout stored at the hash. -/
def create_or_get_descriptor_set_layout (c : LayoutCache) (info : DescriptorSetInfo) :
    Nat × LayoutCache :=
  let h := hashDescriptorSetInfo info
  match c.map.lookup h with
  | some layout => (layout, c)
  | none =>
      (c.nextLayoutId,
        { map := (h, c.nextLayoutId) :: c.map, nextLayoutId := c.nextLayoutId + 1 })

/-- The part of a binding that the hash actually covers. -/
def bindingKey (b : DescriptorBindingInfo) : DescriptorType × Nat :=
  (b.type, b.count)

/-! ## Queue-family selection and command pools (`Device::Device`) -/

/-- `convert` of a gfx queue-capability bitmask (Graphics=1, Compute=2,
Transfer=4) to a vk::QueueFlags mask, mirroring the three `if` statements of
the device constructor (vk: Graphics=1, Compute=2, Transfer=4). -/
def convertQueueFlagsToVk (queueFlags : Nat) : Nat :=
  (if queueFlags &&& 1 ≠ 0 then 1 else 0)
    ||| (if queueFlags &&& 2 ≠ 0 then 2 else 0)
    ||| (if queueFlags &&& 4 ≠ 0 then 4 else 0)

/-- The inner `for (familyIndex ...)` loop of the device constructor: returns
the first family index whose `queueFlags & wantedFlags` is non-zero (a
non-empty intersection), scanning in enumeration order. -/
def findFirstFamily (wantedFlags : Nat) : List Nat → Nat → Option Nat
  | [], _ => none
  | caps :: rest, idx =>
      if caps &&& wantedFlags ≠ 0 then some idx else findFirstFamily wantedFlags rest (idx + 1)

/-- Selection of the queue family for one requested capability bitmask. -/
def selectQueueFamilyIndex (wantedFlags : Nat) (families : List Nat) : Option Nat :=
  findFirstFamily wantedFlags families 0

/-- `m_queueFamilies`: one selected family per requested bitmask; when no
family matches, the entry keeps the value 0 that `resize` default-initialised. -/
def selectQueueFamilies (requested : List Nat) (families : List Nat) : List Nat :=
  requested.map fun q => (selectQueueFamilyIndex (convertQueueFlagsToVk q) families).getD 0

/-- Insert-or-overwrite on an association list, the behaviour of
`m_queueFamilyCommandPoolMap[family] = ...`. -/
def assocInsert (m : List (Nat × Nat)) (k v : Nat) : List (Nat × Nat) :=
  if m.any (fun kv => kv.1 == k) then
    m.map fun kv => if kv.1 == k then (k, v) else kv
  else
    m ++ [(k, v)]

/-- The command-pool creation loop of the device constructor: for each entry
of `m_queueFamilies` (in order) it creates a fresh pool and stores it in the
family-keyed map, overwriting any pool already stored for that family. -/
def buildCommandPools (queueFamilies : List Nat) : List (Nat × Nat) :=
  (queueFamilies.foldl (fun acc fam => (assocInsert acc.1 fam acc.2, acc.2 + 1)) ([], 0)).1

/-- Modelled from the spec: the queue family the claim says should be chosen —
the first family, in enumeration order, whose capability set is a superset of
the wanted capabilities. Used only to compare against the source's
`selectQueueFamilyIndex`. -/
def specFirstSupersetFamily (wantedFlags : Nat) (families : List Nat) : Option Nat :=
  (List.range families.length).find? fun i =>
    decide ((families.getD i 0) &&& wantedFlags = wantedFlags)

/-! ## Device resource tables, handle allocation and lookup -/

/-- The per-device state that the modelled operations touch: the handle of
the device itself, the per-type monotonic id counters and the per-type
resource tables. Command lists carry their recording state; the other tables
only record which ids exist. -/
structure Device where
  deviceHandle : Nat
  nextCommandListId : Nat
  nextFenceId : Nat
  nextBufferId : Nat
  nextTextureId : Nat
  commandListMap : List (Nat × CommandList)
  fenceMap : List Nat
  bufferMap : List Nat
  textureMap : List Nat
deriving DecidableEq, Repr

/-- A freshly constructed device: all counters start at 1 (gfx_p.hpp
initialisers), all tables empty. -/
def Device.new (deviceHandle : Nat) : Device :=
  { deviceHandle := deviceHandle,
    nextCommandListId := 1, nextFenceId := 1, nextBufferId := 1, nextTextureId := 1,
    commandListMap := [], fenceMap := [], bufferMap := [], textureMap := [] }

/-- A composite resource handle (deviceHandle, resourceHandle) as built by
`GFX_DEFINE_RESOURCE_HANDLE`. -/
def Handle := Nat × Nat
deriving DecidableEq, Repr

/-- `Device::create_buffer`: handle = (device, next id); insert; bump id. -/
def Device.create_buffer (d : Device) : Handle × Device :=
  ((d.deviceHandle, d.nextBufferId),
    { d with bufferMap := d.bufferMap ++ [d.nextBufferId], nextBufferId := d.nextBufferId + 1 })

/-- `Device::create_texture`. -/
def Device.create_texture (d : Device) : Handle × Device :=
  ((d.deviceHandle, d.nextTextureId),
    { d with textureMap := d.textureMap ++ [d.nextTextureId], nextTextureId := d.nextTextureId + 1 })

/-- `Device::create_command_list` (the handle/counter part). -/
def Device.create_command_list (d : Device) : Handle × Device :=
  ((d.deviceHandle, d.nextCommandListId),
    { d with
      commandListMap := d.commandListMap ++ [(d.nextCommandListId, ⟨false, none, [], []⟩)],
      nextCommandListId := d.nextCommandListId + 1 })

/-- `Device::create_fence`. -/
def Device.create_fence (d : Device) : Handle × Device :=
  ((d.deviceHandle, d.nextFenceId),
    { d with fenceMap := d.fenceMap ++ [d.nextFenceId], nextFenceId := d.nextFenceId + 1 })

/-- `Device::destroy_buffer` has an empty body in gfx.cpp. -/
def Device.destroy_buffer (d : Device) (_resourceId : Nat) : Device := d

/-- `Device::destroy_texture` has an empty body in gfx.cpp. -/
def Device.destroy_texture (d : Device) (_resourceId : Nat) : Device := d

/-- `Device::wait_on_fence`: `m_fenceMap.at(...)` with NO `contains` check —
an unknown fence id throws `std::out_of_range` (modelled as `none`); a known
fence is waited on and erased from the table. -/
def Device.wait_on_fence (d : Device) (fenceId : Nat) : Option Device :=
  if d.fenceMap.contains fenceId then
    some { d with fenceMap := d.fenceMap.erase fenceId }
  else
    none

/-- `Device::get_command_list`: `contains`-guarded table lookup; returns the
found object and true, or nothing and false, with no state change. -/
def Device.get_command_list (d : Device) (resourceId : Nat) :
    Option CommandList × Bool × Device :=
  match d.commandListMap.lookup resourceId with
  | none => (none, false, d)
  | some cl => (some cl, true, d)

/-- `Device::get_buffer` (the lookup outcome). -/
def Device.get_buffer (d : Device) (resourceId : Nat) : Bool × Device :=
  if d.bufferMap.contains resourceId then (true, d) else (false, d)

/-- Overwrite the command list stored at `resourceId` (the effect of mutating
through the pointer `get_command_list` returned). -/
def Device.set_command_list (d : Device) (resourceId : Nat) (cl : CommandList) : Device :=
  { d with
    commandListMap := d.commandListMap.map fun kv =>
      if kv.1 == resourceId then (kv.1, cl) else kv }

/-- The `Context`: the device table and the device id counter. -/
structure Context where
  deviceMap : List (Nat × Device)
  nextDeviceId : Nat
deriving DecidableEq, Repr

/-- `Context::get_device`: `contains`-guarded lookup; "not found" for an
absent device id, with no state change. -/
def Context.get_device (c : Context) (deviceId : Nat) : Option Device × Bool × Context :=
  match c.deviceMap.lookup deviceId with
  | none => (none, false, c)
  | some d => (some d, true, c)

/-- Overwrite the device stored at `deviceId`. -/
def Context.set_device (c : Context) (deviceId : Nat) (d : Device) : Context :=
  { c with
    deviceMap := c.deviceMap.map fun kv => if kv.1 == deviceId then (kv.1, d) else kv }

/-- The public free function `sm::gfx::begin(commandListHandle)`: resolves
the device, then the command list; returns false if either resolution fails;
otherwise calls `CommandList::begin()` (which reports a double-begin through
the error callback) and returns true unconditionally. -/
def gfx_begin (c : Context) (deviceId resourceId : Nat) : Bool × Context :=
  match c.deviceMap.lookup deviceId with
  | none => (false, c)
  | some d =>
      match d.commandListMap.lookup resourceId with
      | none => (false, c)
      | some cl =>
          (true, c.set_device deviceId (d.set_command_list resourceId cl.begin))

/-- The public free function `sm::gfx::wait_on_fence(fenceHandle)`: an
unresolvable device id reports through the error callback and returns (no
fault, no fence-table change); otherwise `Device::wait_on_fence` runs, and
its unchecked `at` faults on an unknown fence id (`none`). -/
def gfx_wait_on_fence (c : Context) (deviceId fenceId : Nat) :
    Option (Context × List ErrMsg) :=
  match c.deviceMap.lookup deviceId with
  | none => some (c, [.invalidFenceHandleDevice])
  | some d =>
      match d.wait_on_fence fenceId with
      | none => none
      | some d' => some (c.set_device deviceId d', [])

/-! ## Handle-allocation traces (claim C8) -/

/-- The resource types whose creation the trace theorems cover. -/
inductive ResType where
  | buffer
  | texture
  | commandList
  | fence
deriving DecidableEq, Repr

/-- The per-type monotonic counter of the device. -/
def Device.counterOf (d : Device) : ResType → Nat
  | .buffer => d.nextBufferId
  | .texture => d.nextTextureId
  | .commandList => d.nextCommandListId
  | .fence => d.nextFenceId

/-- One public operation against a device, as far as handle allocation is
concerned. -/
inductive DevOp where
  | createBuffer
  | createTexture
  | createCommandList
  | createFence
  | destroyBuffer (resourceId : Nat)
  | destroyTexture (resourceId : Nat)
  | waitFence (resourceId : Nat)
deriving DecidableEq, Repr

/-- State transition of one operation. A faulting `wait_on_fence` (unknown
fence) leaves the modelled tables unchanged. -/
def Device.applyOp (d : Device) : DevOp → Device
  | .createBuffer => d.create_buffer.2
  | .createTexture => d.create_texture.2
  | .createCommandList => d.create_command_list.2
  | .createFence => d.create_fence.2
  | .destroyBuffer r => d.destroy_buffer r
  | .destroyTexture r => d.destroy_texture r
  | .waitFence r => (d.wait_on_fence r).getD d

/-- The handle emitted by one operation, when it is a creation of the given
resource type. -/
def emittedHandle (d : Device) (t : ResType) : DevOp → Option Handle
  | .createBuffer => if t = .buffer then some d.create_buffer.1 else none
  | .createTexture => if t = .texture then some d.create_texture.1 else none
  | .createCommandList => if t = .commandList then some d.create_command_list.1 else none
  | .createFence => if t = .fence then some d.create_fence.1 else none
  | _ => none

/-- The handles of type `t` returned, in order, by running a sequence of
operations against a device. -/
def handlesOf (t : ResType) : Device → List DevOp → List Handle
  | _, [] => []
  | d, op :: ops =>
      (emittedHandle d t op).toList ++ handlesOf t (d.applyOp op) ops

/-! ## RenderGraph (gfx_render_graph.cpp) -/

/-- RenderGraphPass: the declared read and write texture handles (full
64-bit handles, here a single Nat id suffices). Build/execute callbacks are
opaque; `compile` invokes each pass's build callback once (passing no
dimensions). -/
structure RenderGraphPass where
  reads : List Nat
  writes : List Nat
deriving DecidableEq, Repr

/-- `RenderGraphPass::read`: appends the handle and an eUndefined state. -/
def RenderGraphPass.read (p : RenderGraphPass) (textureHandle : Nat) : RenderGraphPass :=
  { p with reads := p.reads ++ [textureHandle] }

/-- `RenderGraphPass::write`. -/
def RenderGraphPass.write (p : RenderGraphPass) (textureHandle : Nat) : RenderGraphPass :=
  { p with writes := p.writes ++ [textureHandle] }

/-- RenderGraph: the name→pass map; the list order stands for the
`unordered_map` iteration order. -/
structure RenderGraph where
  passMap : List (String × RenderGraphPass)
deriving DecidableEq, Repr

/-- `RenderGraph::compile()`: clears the execution order, then for every
pass of the map (in iteration order) invokes its build callback and appends
it to the execution order; always returns true. No dependency analysis, no
cycle detection, no dimensions are involved. -/
def RenderGraph.compile (g : RenderGraph) : Bool × List RenderGraphPass :=
  (true, g.passMap.map Prod.snd)

/-- Modelled from the spec: the ordering discipline claim C6 demands of a
compiled execution order — every pass that reads a texture appears after
every pass that writes that texture. Used only to compare against the
source's `RenderGraph.compile`. -/
def specReadsAfterWrites (order : List RenderGraphPass) : Bool :=
  order.enum.all fun iw =>
    order.enum.all fun jr =>
      !(iw.2.writes.any fun t => jr.2.reads.contains t) || decide (iw.1 < jr.1)

/-! # Theorems -/

/-- C1: for every command list, `reset()` yields a state from which `begin()`
succeeds (no error is reported) and transitions the list to Recording;
`begin()` on a list that is already Recording — including after `end()`
without an intervening `reset()`, since `end()` leaves `m_hasBegun` set —
reports an error through the error callback and changes neither the
recording flag, the bound pipeline, nor the recorded commands; `reset()` is
idempotent and clears the bound-pipeline reference. -/
theorem commandList_recording_state_machine (s : CommandList) :
    (s.reset.begin).hasBegun = true
    ∧ (s.reset.begin).errors = s.reset.errors
    ∧ (s.hasBegun = true →
        (s.begin).hasBegun = s.hasBegun
        ∧ (s.begin).boundPipeline = s.boundPipeline
        ∧ (s.begin).buf = s.buf
        ∧ (s.begin).errors = s.errors ++ [ErrMsg.alreadyBegunRecording])
    ∧ (s.hasBegun = true →
        ((s.end').begin).hasBegun = (s.end').hasBegun
        ∧ ((s.end').begin).errors = (s.end').errors ++ [ErrMsg.alreadyBegunRecording])
    ∧ s.reset.reset = s.reset
    ∧ s.reset.boundPipeline = none := by
  cases h : s.hasBegun <;>
    simp [CommandList.reset, CommandList.begin, CommandList.end', h]

/-- Witness for C1 at a concrete already-recording list. -/
theorem commandList_recording_state_machine_witness :
    ((⟨true, none, [], []⟩ : CommandList).begin).errors = [ErrMsg.alreadyBegunRecording] :=
  ((commandList_recording_state_machine ⟨true, none, [], []⟩).2.2.1 rfl).2.2.2

/-- C2 counterexample: on a command list that is NOT Recording,
`bind_pipeline` is not ignored — it records a bind-pipeline command into the
command buffer and overwrites the bound-pipeline reference (the source's
`CommandList::bind_pipeline` has no `m_hasBegun` guard). -/
theorem bind_pipeline_not_ignored_when_idle :
    (⟨false, none, [], []⟩ : CommandList).hasBegun = false
    ∧ ((⟨false, none, [], []⟩ : CommandList).bind_pipeline
        (some ⟨.eCompute, 5, 6⟩)).buf = [Cmd.bindPipeline .eCompute 5]
    ∧ ((⟨false, none, [], []⟩ : CommandList).bind_pipeline
        (some ⟨.eCompute, 5, 6⟩)).boundPipeline = some ⟨.eCompute, 5, 6⟩ := by
  decide

/-- C2 (amended): on a command list that is not Recording, every recording
operation EXCEPT `bind_pipeline` — render-pass begin/end, viewport/scissor
set, descriptor-set bind, push-constant write, dispatch, index/vertex buffer
bind, draw/draw-indexed, texture-state transition — performs no action,
records nothing and raises no error; `bind_pipeline` alone lacks the
recording-state guard: with a non-null pipeline it records the bind and sets
the bound-pipeline reference regardless of the recording state. -/
theorem lenient_recording_policy (s : CommandList) (h : s.hasBegun = false)
    (cv : List Nat) (hd : Bool) (x y w ht mnd mxd sx sy : Int) (sw sh : Nat)
    (ds st off sz gx gy gz ib : Nat) (ity : IndexType) (vb vc ic fv fi : Nat)
    (dic dinst dfi : Nat) (dvo : Int) (dfinst img : Nat)
    (os ns : TextureState) (p : Pipeline) :
    s.begin_render_pass cv hd = s
    ∧ s.end_render_pass = s
    ∧ s.set_viewport x y w ht mnd mxd = s
    ∧ s.set_scissor sx sy sw sh = s
    ∧ s.bind_descriptor_set ds = s
    ∧ s.set_constants st off sz = some s
    ∧ s.dispatch gx gy gz = s
    ∧ s.bind_index_buffer ib ity = s
    ∧ s.bind_vertex_buffer vb = s
    ∧ s.draw vc ic fv fi = s
    ∧ s.draw_indexed dic dinst dfi dvo dfinst = s
    ∧ s.transition_texture img os ns = some s
    ∧ (s.bind_pipeline (some p)).buf = s.buf ++ [Cmd.bindPipeline p.bindPoint p.vkPipeline]
    ∧ (s.bind_pipeline (some p)).boundPipeline = some p := by
  simp [CommandList.begin_render_pass, CommandList.end_render_pass,
    CommandList.set_viewport, CommandList.set_scissor, CommandList.bind_descriptor_set,
    CommandList.set_constants, CommandList.dispatch, CommandList.bind_index_buffer,
    CommandList.bind_vertex_buffer, CommandList.draw, CommandList.draw_indexed,
    CommandList.transition_texture, CommandList.bind_pipeline, h]

/-- Witness for C2 (amended) at a concrete idle list. -/
theorem lenient_recording_policy_witness :
    (⟨false, none, [], []⟩ : CommandList).draw 3 1 0 0 = (⟨false, none, [], []⟩ : CommandList) := by
  have h := lenient_recording_policy (⟨false, none, [], []⟩ : CommandList) rfl
    [] false 0 0 0 0 0 0 0 0 0 0 0 0 0 0 0 0 0 0 .eUint16 0 3 1 0 0 0 0 0 0 0 0
    .eUndefined .eUndefined ⟨.eCompute, 1, 2⟩
  exact h.2.2.2.2.2.2.2.2.2.1

/-- C3 (the code evaluated at the failing input): on a Recording list with no
bound pipeline, `bind_descriptor_set` is indeed rejected through the error
callback as a no-op, but `set_constants` dereferences the null
`m_boundPipeline` (modelled `none`) instead of reporting and returning. -/
theorem set_constants_without_pipeline_faults :
    (⟨true, none, [], []⟩ : CommandList).set_constants 1 0 4 = none
    ∧ (⟨true, none, [], []⟩ : CommandList).bind_descriptor_set 9
        = ⟨true, none, [], [ErrMsg.noPipelineForDescriptorSet]⟩ := by
  decide

/-- C4 (the code evaluated at the failing input): the three static barrier
tables have no entry for `eUploadDst`, so `transition_texture` involving
`eUploadDst` trips the GFX_ASSERT and throws out of `unordered_map::at`
(modelled `none`) instead of producing a barrier; for the four covered
states the pure (old, new) ↦ barrier mapping does hold, shown here at
(eUndefined, eRenderTarget). -/
theorem transition_texture_uploadDst_faults :
    s_textureStateImageLayoutMap .eUploadDst = none
    ∧ s_barrierTextureStatePipelineStageMaskMap .eUploadDst = none
    ∧ s_barrierTextureStateAccessMaskMap .eUploadDst = none
    ∧ (⟨true, none, [], []⟩ : CommandList).transition_texture 7 .eUploadDst .eShaderRead = none
    ∧ (⟨true, none, [], []⟩ : CommandList).transition_texture 7 .eShaderRead .eUploadDst = none
    ∧ (⟨true, none, [], []⟩ : CommandList).transition_texture 7 .eUndefined .eRenderTarget
        = some ⟨true, none,
            [Cmd.pipelineBarrier2
              ⟨7, .eUndefined, .eAttachmentOptimal, .eTopOfPipe, .eColorAttachmentOutput,
                .eNone, .eColorAttachmentWrite⟩], []⟩ := by
  decide

/-- Helper: the binding fold of the structural hash depends only on the
(type, count) projection of the binding list. -/
theorem hash_fold_depends_only_on_key (l1 : List DescriptorBindingInfo) :
    ∀ (l2 : List DescriptorBindingInfo) (seed : Nat),
      l1.map bindingKey = l2.map bindingKey →
      l1.foldl (fun s b => hash_combine (hash_combine s b.type.toNat) b.count) seed
        = l2.foldl (fun s b => hash_combine (hash_combine s b.type.toNat) b.count) seed := by
  induction l1 with
  | nil =>
      intro l2 seed h
      cases l2 with
      | nil => rfl
      | cons b t => simp [bindingKey] at h
  | cons b t ih =>
      intro l2 seed h
      cases l2 with
      | nil => simp [bindingKey] at h
      | cons b' t' =>
          simp only [List.map_cons, List.cons.injEq, bindingKey, Prod.mk.injEq] at h
          obtain ⟨⟨hty, hc⟩, ht⟩ := h
          simp only [List.foldl_cons, hty, hc]
          exact ih t' _ ht

/-- C5 counterexample: two `DescriptorSetInfo` values that differ only in a
binding's shader-stage mask are structurally different, yet hash-equal
(the hash never feeds `shaderStages`), so the second cache call returns the
layout cached for the first — NOT a different layout, and not by accidental
collision. -/
theorem descriptor_hash_ignores_shader_stages :
    (⟨[⟨.eUniformBuffer, 1, 1⟩]⟩ : DescriptorSetInfo) ≠ (⟨[⟨.eUniformBuffer, 1, 2⟩]⟩ : DescriptorSetInfo)
    ∧ hashDescriptorSetInfo ⟨[⟨.eUniformBuffer, 1, 1⟩]⟩
        = hashDescriptorSetInfo ⟨[⟨.eUniformBuffer, 1, 2⟩]⟩
    ∧ (create_or_get_descriptor_set_layout
        (create_or_get_descriptor_set_layout LayoutCache.empty ⟨[⟨.eUniformBuffer, 1, 1⟩]⟩).2
        ⟨[⟨.eUniformBuffer, 1, 2⟩]⟩).1
      = (create_or_get_descriptor_set_layout LayoutCache.empty ⟨[⟨.eUniformBuffer, 1, 1⟩]⟩).1 := by
  decide

/-- C5 (amended): the cache key is the structural hash of the binding-list
length and each binding's (type, count) — the shader-stage mask is not part
of the key. Two infos with equal ordered (type, count) binding lists
hash-equal and the second lookup returns the layout object cached by the
first; two infos whose hashes differ receive different layout objects. -/
theorem descriptor_layout_cache (i1 i2 : DescriptorSetInfo) :
    (i1.bindings.map bindingKey = i2.bindings.map bindingKey →
      hashDescriptorSetInfo i1 = hashDescriptorSetInfo i2
      ∧ (create_or_get_descriptor_set_layout
          (create_or_get_descriptor_set_layout LayoutCache.empty i1).2 i2).1
        = (create_or_get_descriptor_set_layout LayoutCache.empty i1).1)
    ∧ (hashDescriptorSetInfo i1 ≠ hashDescriptorSetInfo i2 →
      (create_or_get_descriptor_set_layout
          (create_or_get_descriptor_set_layout LayoutCache.empty i1).2 i2).1
        ≠ (create_or_get_descriptor_set_layout LayoutCache.empty i1).1) := by
  constructor
  · intro hkey
    have hlen : i1.bindings.length = i2.bindings.length := by
      simpa using congrArg List.length hkey
    have hhash : hashDescriptorSetInfo i1 = hashDescriptorSetInfo i2 := by
      unfold hashDescriptorSetInfo
      rw [hlen]
      exact hash_fold_depends_only_on_key _ _ _ hkey
    refine ⟨hhash, ?_⟩
    simp [create_or_get_descriptor_set_layout, LayoutCache.empty, List.lookup, hhash]
  · intro hne
    have hbeq : (hashDescriptorSetInfo i2 == hashDescriptorSetInfo i1) = false := by
      simpa using Ne.symm hne
    simp [create_or_get_descriptor_set_layout, LayoutCache.empty, List.lookup, hbeq]

/-- Witness for C5 (amended): stage-mask-only variation hits the cache; a
different binding list (different hash) gets a different layout. -/
theorem descriptor_layout_cache_witness :
    hashDescriptorSetInfo ⟨[⟨.eStorageBuffer, 2, 1⟩]⟩
      = hashDescriptorSetInfo ⟨[⟨.eStorageBuffer, 2, 4⟩]⟩
    ∧ (create_or_get_descriptor_set_layout
        (create_or_get_descriptor_set_layout LayoutCache.empty ⟨[]⟩).2
        ⟨[⟨.eStorageBuffer, 2, 1⟩]⟩).1
      ≠ (create_or_get_descriptor_set_layout LayoutCache.empty ⟨[]⟩).1 :=
  ⟨((descriptor_layout_cache ⟨[⟨.eStorageBuffer, 2, 1⟩]⟩ ⟨[⟨.eStorageBuffer, 2, 4⟩]⟩).1 rfl).1,
    (descriptor_layout_cache ⟨[]⟩ ⟨[⟨.eStorageBuffer, 2, 1⟩]⟩).2 (by decide)⟩

/-- C6 (the code evaluated at a failing input): `RenderGraph::compile()`
returns true for EVERY graph — it never fails, cyclic or not — and on the
two-pass cyclic graph (P1 reads T2/writes T1, P2 reads T1/writes T2) the
execution order it produces cannot and does not satisfy the
reads-after-writes discipline the claim demands. -/
theorem renderGraph_compile_is_a_stub :
    (∀ g : RenderGraph, g.compile.1 = true)
    ∧ RenderGraph.compile ⟨[("P1", ⟨[2], [1]⟩), ("P2", ⟨[1], [2]⟩)]⟩
        = (true, [⟨[2], [1]⟩, ⟨[1], [2]⟩])
    ∧ specReadsAfterWrites
        (RenderGraph.compile ⟨[("P1", ⟨[2], [1]⟩), ("P2", ⟨[1], [2]⟩)]⟩).2 = false := by
  exact ⟨fun _ => rfl, rfl, by decide⟩

/-- C7 counterexample: requesting Graphics|Compute (mask 3) against families
[Compute-only (2), Graphics|Compute (3)]: the source selects family 0, whose
capability set is NOT a superset of the request (2 & 3 ≠ 3); the first
superset family is family 1. The source's test is `queueFlags & wantedFlags`
(non-empty intersection), not superset containment. -/
theorem queue_family_selection_counterexample :
    convertQueueFlagsToVk 3 = 3
    ∧ selectQueueFamilyIndex 3 [2, 3] = some 0
    ∧ 2 &&& 3 ≠ 3
    ∧ specFirstSupersetFamily 3 [2, 3] = some 1
    ∧ selectQueueFamilies [3] [2, 3] = [0] := by
  decide

/-- Helper: characterisation of the family-search loop — a returned index is
`base` plus the position of the first family whose capabilities intersect
the wanted mask, every earlier family having an empty intersection. -/
theorem findFirstFamily_first_match (wanted : Nat) :
    ∀ (families : List Nat) (base i : Nat),
      findFirstFamily wanted families base = some i →
      ∃ k, i = base + k
        ∧ (∃ caps, families.get? k = some caps ∧ caps &&& wanted ≠ 0)
        ∧ ∀ j, j < k → ∀ caps', families.get? j = some caps' → caps' &&& wanted = 0 := by
  intro families
  induction families with
  | nil => intro base i h; simp [findFirstFamily] at h
  | cons caps rest ih =>
      intro base i h
      simp only [findFirstFamily] at h
      by_cases hc : caps &&& wanted ≠ 0
      · rw [if_pos hc] at h
        have hbase : base = i := Option.some.inj h
        refine ⟨0, by omega, ⟨caps, rfl, hc⟩, ?_⟩
        intro j hj
        exact absurd hj (Nat.not_lt_zero j)
      · rw [if_neg hc] at h
        obtain ⟨k, hk, hfound, hearlier⟩ := ih (base + 1) i h
        refine ⟨k + 1, by omega, by simpa using hfound, ?_⟩
        intro j hj caps' hget
        cases j with
        | zero =>
            have hcc : caps = caps' := by simpa using hget
            subst hcc
            simpa using hc
        | succ j' =>
            exact hearlier j' (by omega) caps' (by simpa using hget)

/-- Helper: the key list of `assocInsert` is unchanged when the key is
already present and gains the key at the end otherwise. -/
theorem assocInsert_keys (m : List (Nat × Nat)) (k v : Nat) :
    (assocInsert m k v).map Prod.fst
      = if k ∈ m.map Prod.fst then m.map Prod.fst else m.map Prod.fst ++ [k] := by
  have hmem : (m.any fun kv => kv.1 == k) = true ↔ k ∈ m.map Prod.fst := by
    simp [List.any_eq_true, List.mem_map]
  by_cases hk : k ∈ m.map Prod.fst
  · rw [if_pos hk]
    unfold assocInsert
    rw [if_pos (hmem.mpr hk)]
    rw [List.map_map]
    apply List.map_congr_left
    intro kv _
    by_cases hkv : kv.1 = k
    · simp [Function.comp, hkv]
    · simp [Function.comp, hkv]
  · rw [if_neg hk]
    unfold assocInsert
    rw [if_neg (by simpa [hmem] using hk)]
    simp

/-- Helper: invariant of the command-pool creation fold — distinct keys, and
the keys are exactly the accumulated families. -/
theorem pools_fold_keys (fams : List Nat) :
    ∀ (m : List (Nat × Nat)) (n : Nat), (m.map Prod.fst).Nodup →
      (((fams.foldl (fun acc fam => (assocInsert acc.1 fam acc.2, acc.2 + 1)) (m, n)).1).map
          Prod.fst).Nodup
      ∧ ∀ f, f ∈ ((fams.foldl (fun acc fam => (assocInsert acc.1 fam acc.2, acc.2 + 1)) (m, n)).1).map
          Prod.fst ↔ (f ∈ m.map Prod.fst ∨ f ∈ fams) := by
  induction fams with
  | nil =>
      intro m n hnd
      simpa using hnd
  | cons fam rest ih =>
      intro m n hnd
      have hkeys := assocInsert_keys m fam n
      have hnd' : ((assocInsert m fam n).map Prod.fst).Nodup := by
        rw [hkeys]
        by_cases hf : fam ∈ m.map Prod.fst
        · simpa [hf] using hnd
        · simp only [if_neg hf]
          simpa [List.nodup_append, hf] using hnd
      have hmem' : ∀ f, f ∈ (assocInsert m fam n).map Prod.fst
          ↔ (f ∈ m.map Prod.fst ∨ f = fam) := by
        intro f
        rw [hkeys]
        by_cases hf : fam ∈ m.map Prod.fst
        · simp only [if_pos hf]
          constructor
          · exact Or.inl
          · rintro (h | rfl)
            · exact h
            · exact hf
        · simp [if_neg hf]
      obtain ⟨hnodup, hmem⟩ := ih (assocInsert m fam n) (n + 1) hnd'
      refine ⟨by simpa using hnodup, ?_⟩
      intro f
      rw [show rest.foldl (fun acc fam => (assocInsert acc.1 fam acc.2, acc.2 + 1))
            (assocInsert m fam n, n + 1)
          = (fam :: rest).foldl (fun acc fam => (assocInsert acc.1 fam acc.2, acc.2 + 1)) (m, n)
        from rfl] at hmem
      rw [hmem f, hmem' f]
      simp
      tauto

/-- C7 (amended): each requested queue-capability bitmask is mapped to the
first queue family, in enumeration order, whose capability set has a
non-empty intersection with the requested capabilities (not necessarily a
superset); and the command-pool table built by the constructor loop ends up
holding exactly one pool per distinct queue family used. -/
theorem queue_family_selection_amended (wanted : Nat) (families : List Nat) (i : Nat)
    (h : selectQueueFamilyIndex wanted families = some i) (fams : List Nat) :
    ((∃ caps, families.get? i = some caps ∧ caps &&& wanted ≠ 0)
      ∧ ∀ j, j < i → ∀ caps', families.get? j = some caps' → caps' &&& wanted = 0)
    ∧ ((buildCommandPools fams).map Prod.fst).Nodup
    ∧ (∀ f, f ∈ (buildCommandPools fams).map Prod.fst ↔ f ∈ fams) := by
  obtain ⟨k, hk, hfound, hearlier⟩ := findFirstFamily_first_match wanted families 0 i h
  have hik : i = k := by omega
  subst hik
  obtain ⟨hnodup, hmem⟩ := pools_fold_keys fams [] 0 (by simp)
  refine ⟨⟨hfound, hearlier⟩, ?_, ?_⟩
  · simpa [buildCommandPools] using hnodup
  · intro f
    simpa [buildCommandPools] using hmem f

/-- Witness for C7 (amended) at the counterexample configuration. -/
theorem queue_family_selection_amended_witness :
    ((∃ caps, [2, 3].get? 0 = some caps ∧ caps &&& 3 ≠ 0)
      ∧ ∀ j, j < 0 → ∀ caps', List.get? [2, 3] j = some caps' → caps' &&& 3 = 0)
    ∧ ((buildCommandPools [0, 0, 1]).map Prod.fst).Nodup
    ∧ (∀ f, f ∈ (buildCommandPools [0, 0, 1]).map Prod.fst ↔ f ∈ [0, 0, 1]) :=
  queue_family_selection_amended 3 [2, 3] 0 (by decide) [0, 0, 1]

/-- Helper: no operation changes the device's own handle. -/
theorem applyOp_deviceHandle (d : Device) (op : DevOp) :
    (d.applyOp op).deviceHandle = d.deviceHandle := by
  cases op
  all_goals
    simp [Device.applyOp, Device.create_buffer, Device.create_texture,
      Device.create_command_list, Device.create_fence, Device.destroy_buffer,
      Device.destroy_texture, Device.wait_on_fence]
  all_goals
    split <;> rfl

/-- Helper: no operation decreases any per-type id counter. -/
theorem applyOp_counter_le (d : Device) (op : DevOp) (t : ResType) :
    d.counterOf t ≤ (d.applyOp op).counterOf t := by
  cases op <;> cases t <;>
    simp [Device.applyOp, Device.counterOf, Device.create_buffer, Device.create_texture,
      Device.create_command_list, Device.create_fence, Device.destroy_buffer,
      Device.destroy_texture, Device.wait_on_fence] <;>
    split <;> simp

/-- Helper: an emitted handle carries the device's handle and the current
counter of its type, and the operation bumps that counter by one. -/
theorem emittedHandle_eq (d : Device) (t : ResType) (op : DevOp) (h : Handle)
    (he : emittedHandle d t op = some h) :
    h = (d.deviceHandle, d.counterOf t) ∧ (d.applyOp op).counterOf t = d.counterOf t + 1 := by
  cases op <;> cases t <;>
    simp [emittedHandle, Device.applyOp, Device.counterOf, Device.create_buffer,
      Device.create_texture, Device.create_command_list, Device.create_fence] at he ⊢ <;>
    simp [he.symm]

/-- Helper: every handle in a trace has an id at least the device's current
counter of its type and carries the device's handle. -/
theorem handlesOf_lower_bound (t : ResType) (ops : List DevOp) :
    ∀ d : Device, ∀ h ∈ handlesOf t d ops, d.counterOf t ≤ h.2 ∧ h.1 = d.deviceHandle := by
  induction ops with
  | nil => intro d h hm; simp [handlesOf] at hm
  | cons op rest ih =>
      intro d h hm
      simp only [handlesOf, List.mem_append, Option.mem_toList, Option.mem_def] at hm
      rcases hm with hm | hm
      · obtain ⟨hh, _⟩ := emittedHandle_eq d t op h hm
        subst hh
        exact ⟨Nat.le_refl _, rfl⟩
      · obtain ⟨hle, hdev⟩ := ih (d.applyOp op) h hm
        exact ⟨Nat.le_trans (applyOp_counter_le d op t) hle,
          hdev.trans (applyOp_deviceHandle d op)⟩

/-- C8: for every device state, every operation sequence and every resource
type, the trace of handles returned by the creation calls of that type has
strictly increasing resource ids (hence the handles are pairwise distinct
and ids are never reused, destruction operations included), and every handle
carries the device's handle as its device component. -/
theorem handle_uniqueness (t : ResType) (d : Device) (ops : List DevOp) :
    (handlesOf t d ops).Pairwise (fun a b => a.2 < b.2)
    ∧ ∀ h ∈ handlesOf t d ops, h.1 = d.deviceHandle := by
  induction ops generalizing d with
  | nil => simp [handlesOf]
  | cons op rest ih =>
      refine ⟨?_, ?_⟩
      · show ((emittedHandle d t op).toList ++ handlesOf t (d.applyOp op) rest).Pairwise _
        cases he : emittedHandle d t op with
        | none => simpa using (ih (d.applyOp op)).1
        | some h0 =>
            simp only [Option.toList_some, List.singleton_append, List.pairwise_cons]
            refine ⟨?_, (ih (d.applyOp op)).1⟩
            intro h hm
            obtain ⟨hh0, hbump⟩ := emittedHandle_eq d t op h0 he
            obtain ⟨hle, _⟩ := handlesOf_lower_bound t rest (d.applyOp op) h hm
            rw [hh0]
            omega
      · intro h hm
        exact (handlesOf_lower_bound t (op :: rest) d h hm).2

/-- Witness for C8: a concrete trace with interleaved creations and
destructions. -/
theorem handle_uniqueness_witness :
    (handlesOf .buffer (Device.new 4)
        [.createBuffer, .destroyBuffer 1, .createBuffer, .createFence, .waitFence 1,
          .createFence]).Pairwise (fun a b => a.2 < b.2)
    ∧ ((4, 1) : Handle).1 = (Device.new 4).deviceHandle :=
  ⟨(handle_uniqueness .buffer (Device.new 4)
      [.createBuffer, .destroyBuffer 1, .createBuffer, .createFence, .waitFence 1,
        .createFence]).1,
    (handle_uniqueness .buffer (Device.new 4)
      [.createBuffer, .destroyBuffer 1, .createBuffer, .createFence, .waitFence 1,
        .createFence]).2 ((4, 1) : Handle) (by decide)⟩

/-- C9 counterexample: `Device::wait_on_fence` given an unknown fence handle
does NOT return boolean false without side effects — it performs an
unchecked `m_fenceMap.at(...)` that throws (modelled `none`), a fault; the
same fault surfaces through the public `wait_on_fence` once the device id
resolves. -/
theorem wait_on_fence_unknown_fence_faults :
    (Device.new 1).fenceMap = []
    ∧ Device.wait_on_fence (Device.new 1) 5 = none
    ∧ gfx_wait_on_fence ⟨[(1, Device.new 1)], 2⟩ 1 5 = none := by
  decide

/-- C9 (amended): the `contains`-guarded lookups (`Context::get_device`,
`Device::get_command_list`, `Device::get_buffer`) report "not found" for an
absent handle and return with no state change, and the public operations
that resolve a device (`begin`, `wait_on_fence`) return false / report and
return when the device id is absent; but `Device::wait_on_fence` on an
unknown fence id faults on its unchecked map access rather than returning
false. -/
theorem resource_not_found_policy (c : Context) (deviceId : Nat)
    (hc : c.deviceMap.lookup deviceId = none)
    (d : Device) (rid : Nat) (hcl : d.commandListMap.lookup rid = none)
    (hb : d.bufferMap.contains rid = false) (hf : d.fenceMap.contains rid = false) :
    c.get_device deviceId = (none, false, c)
    ∧ d.get_command_list rid = (none, false, d)
    ∧ d.get_buffer rid = (false, d)
    ∧ d.wait_on_fence rid = none
    ∧ gfx_wait_on_fence c deviceId rid = some (c, [ErrMsg.invalidFenceHandleDevice])
    ∧ gfx_begin c deviceId rid = (false, c) := by
  have hb' : rid ∉ d.bufferMap := by simpa using hb
  have hf' : rid ∉ d.fenceMap := by simpa using hf
  simp [Context.get_device, Device.get_command_list, Device.get_buffer,
    Device.wait_on_fence, gfx_wait_on_fence, gfx_begin, hc, hcl, hb', hf']

/-- Witness for C9 (amended) at concrete empty tables. -/
theorem resource_not_found_policy_witness :
    Context.get_device ⟨[], 1⟩ 7 = (none, false, (⟨[], 1⟩ : Context))
    ∧ Device.wait_on_fence (Device.new 3) 9 = none :=
  ⟨(resource_not_found_policy ⟨[], 1⟩ 7 rfl (Device.new 3) 9 rfl rfl rfl).1,
    (resource_not_found_policy ⟨[], 1⟩ 7 rfl (Device.new 3) 9 rfl rfl rfl).2.2.2.1⟩

/-- C10: whenever the command-list handle resolves (its device id is in the
context's table and its resource id in that device's table), the public free
function `begin` returns true — also in the run where the list was already
Recording, in which case the double-begin error goes to the error callback
while the boolean return stays true; the return value reflects handle
resolution only. -/
theorem gfx_begin_returns_true (c : Context) (deviceId resourceId : Nat)
    (d : Device) (cl : CommandList)
    (hd : c.deviceMap.lookup deviceId = some d)
    (hcl : d.commandListMap.lookup resourceId = some cl) :
    (gfx_begin c deviceId resourceId).1 = true
    ∧ (cl.hasBegun = true →
        cl.begin.errors = cl.errors ++ [ErrMsg.alreadyBegunRecording]
        ∧ cl.begin.hasBegun = true) := by
  refine ⟨?_, ?_⟩
  · simp [gfx_begin, hd, hcl]
  · intro hb
    simp [CommandList.begin, hb]

/-- Witness for C10: a context whose single command list is already
Recording; `begin` still returns true. -/
theorem gfx_begin_returns_true_witness :
    (gfx_begin
        ⟨[(1, { Device.new 1 with commandListMap := [(2, ⟨true, none, [], []⟩)] })], 2⟩
        1 2).1 = true
    ∧ (⟨true, none, [], []⟩ : CommandList).begin.errors
        = [] ++ [ErrMsg.alreadyBegunRecording] :=
  ⟨(gfx_begin_returns_true
      ⟨[(1, { Device.new 1 with commandListMap := [(2, ⟨true, none, [], []⟩)] })], 2⟩
      1 2 { Device.new 1 with commandListMap := [(2, ⟨true, none, [], []⟩)] }
      ⟨true, none, [], []⟩ rfl rfl).1,
    ((gfx_begin_returns_true
      ⟨[(1, { Device.new 1 with commandListMap := [(2, ⟨true, none, [], []⟩)] })], 2⟩
      1 2 { Device.new 1 with commandListMap := [(2, ⟨true, none, [], []⟩)] }
      ⟨true, none, [], []⟩ rfl rfl).2 rfl).1⟩

end SmGfx
